import Mathlib

/-!
# ESP32FailSafe: a loop-liveness supervisor

Shallow embedding of `src/ESP32FailSafe.h` and `src/ESP32FailSafe.cpp`.

* The supervisor object is the record `ESP32FailSafe`, with the five private
  members of the C++ class.
* Everything outside the object is the world `σ`: the hardware clock behind
  `millis()` and whatever the registered closures read and write.  A registered
  `std::function<bool()>` is a function `σ → Bool × σ`; `millis()` is a function
  `σ → Nat × σ` supplied by the `Board`.
* `unsigned long` values are natural numbers below `2 ^ bits` (`bits = 32` on
  the ESP32); the only arithmetic the class performs on them, the subtraction
  in `feed`, is taken modulo `2 ^ bits` (`usub`).
* Every member function returns an `Outcome`: the object after the call, the
  world after the call, and the chronological list of interactions with the
  collaborators during the call (`Event`): clock reads, predicate evaluations
  and writes to `Serial`.
* An Arduino `String` is a text; `c_str()` hands the same text to `println`.
-/

namespace FailSafe

/-! ## Data model -/

/-- Value of the unscoped C++ enum `FailSafeReason`; the enumerators are the
constants below, in declaration order. -/
abbrev FailSafeReason := Nat

/-- No failure detected. -/
def FAILSAFE_NONE : FailSafeReason := 0
/-- Main loop timeout (feed not called in time). -/
def FAILSAFE_LOOP_TIMEOUT : FailSafeReason := 1
/-- A critical check failed. -/
def FAILSAFE_CRITICAL_ERROR : FailSafeReason := 2
/-- Manually triggered safe mode. -/
def FAILSAFE_MANUAL : FailSafeReason := 3

/-- One registered health check: `struct CheckFunction`. -/
structure CheckFunction (σ : Type) where
  /-- Check name for logging. -/
  name : String
  /-- The function to call; it may read and change the world. -/
  func : σ → Bool × σ

/-- The private members of `class ESP32FailSafe`. -/
structure ESP32FailSafe (σ : Type) where
  /-- Max time allowed between `feed()` calls. -/
  timeout : Nat
  /-- Last time `feed()` was called. -/
  lastFeed : Nat
  /-- True if we are in safe mode. -/
  safeMode : Bool
  /-- Why we entered safe mode. -/
  reason : FailSafeReason
  /-- All registered checks, in `push_back` order. -/
  checkFunctions : List (CheckFunction σ)

/-- The collaborators supplied by the Arduino core. -/
structure Board (σ : Type) where
  /-- Width of `unsigned long` in bits. -/
  bits : Nat
  /-- The call `millis()`: the counter value read, and the world afterwards. -/
  millis : σ → Nat × σ

/-- One interaction of the supervisor with a collaborator. -/
inductive Event where
  /-- A call of `millis()` that returned `t`. -/
  | millis (t : Nat)
  /-- A call of the predicate at position `index` of the registry. -/
  | call (index : Nat) (name : String) (result : Bool)
  /-- The call `Serial.print(s)`. -/
  | print (s : String)
  /-- The call `Serial.println(s)`. -/
  | println (s : String)
  deriving DecidableEq, Repr

/-- Whether the event is a predicate evaluation. -/
def Event.isCall : Event → Bool
  | .call _ _ _ => true
  | _ => false

/-- Whether the event is a clock read. -/
def Event.isMillis : Event → Bool
  | .millis _ => true
  | _ => false

/-- Whether the event is a write to `Serial`. -/
def Event.isSerial : Event → Bool
  | .print _ => true
  | .println _ => true
  | _ => false

/-- Result of running a member function. -/
structure Outcome (σ : Type) where
  /-- The object after the call. -/
  self : ESP32FailSafe σ
  /-- The world after the call. -/
  world : σ
  /-- What the call did to the collaborators, in order. -/
  events : List Event

/-! ## Arithmetic on `unsigned long` -/

/-- Subtraction `a - b` of two `unsigned long` values of width `w`. -/
def usub (w a b : Nat) : Nat :=
  (a + (2 ^ w - b % 2 ^ w)) % 2 ^ w

/-! ## Member functions -/

variable {σ : Type}

/-- Constructor: set default values. -/
def ESP32FailSafe.new : ESP32FailSafe σ :=
  { timeout := 3000
    lastFeed := 0
    safeMode := false
    reason := FAILSAFE_NONE
    checkFunctions := [] }

/-- The five `Serial` calls of `enterSafeMode`. -/
def banner (msg : String) : List Event :=
  [ .println "\n============================",
    .println "⚠️ FAILSAFE MODE ACTIVATED ⚠️",
    .print "Reason: ",
    .println msg,
    .println "============================\n" ]

/-- Helper to activate safe mode, set reason, and log message. -/
def ESP32FailSafe.enterSafeMode (fs : ESP32FailSafe σ) (r : FailSafeReason)
    (msg : String) (w : σ) : Outcome σ :=
  { self := { fs with safeMode := true, reason := r }
    world := w
    events := banner msg }

/-- Initialize system with loop timeout. -/
def ESP32FailSafe.begin (b : Board σ) (fs : ESP32FailSafe σ)
    (loopTimeoutMs : Nat) (w : σ) : Outcome σ :=
  let now := b.millis w
  { self := { fs with timeout := loopTimeoutMs, lastFeed := now.1 }
    world := now.2
    events := [.millis now.1] }

/-- The body of `feed` from the `for` loop on: `rest` is what is left of the
registry, `i` the position of its head. -/
def ESP32FailSafe.feedChecks (b : Board σ) (fs : ESP32FailSafe σ) :
    List (CheckFunction σ) → Nat → σ → Outcome σ
  | [], _, w =>
      -- All checks passed, update last feed time
      let now := b.millis w
      { self := { fs with lastFeed := now.1 }
        world := now.2
        events := [.millis now.1] }
  | check :: rest, i, w =>
      let r := check.func w
      if !r.1 then
        let msg := "Check failed: " ++ check.name
        let o := fs.enterSafeMode FAILSAFE_CRITICAL_ERROR msg r.2
        { o with events := .call i check.name false :: o.events }
      else
        let o := ESP32FailSafe.feedChecks b fs rest (i + 1) r.2
        { o with events := .call i check.name true :: o.events }

/-- Must be called regularly in `loop()` to confirm program is alive. -/
def ESP32FailSafe.feed (b : Board σ) (fs : ESP32FailSafe σ) (w : σ) : Outcome σ :=
  if fs.safeMode then
    { self := fs, world := w, events := [] }
  else
    let now := b.millis w
    if usub b.bits now.1 fs.lastFeed > fs.timeout then
      let o := fs.enterSafeMode FAILSAFE_LOOP_TIMEOUT "Loop timeout detected." now.2
      { o with events := .millis now.1 :: o.events }
    else
      let o := fs.feedChecks b fs.checkFunctions 0 now.2
      { o with events := .millis now.1 :: o.events }

/-- Add a new check function to monitor something. -/
def ESP32FailSafe.registerCheck (fs : ESP32FailSafe σ) (name : String)
    (checkFunc : σ → Bool × σ) (w : σ) : Outcome σ :=
  { self := { fs with
      checkFunctions := fs.checkFunctions ++ [{ name := name, func := checkFunc }] }
    world := w
    events := [] }

/-- Manually mark a fatal system failure and trigger safe mode. -/
def ESP32FailSafe.markCriticalError (fs : ESP32FailSafe σ) (msg : String)
    (w : σ) : Outcome σ :=
  fs.enterSafeMode FAILSAFE_CRITICAL_ERROR msg w

/-- User manually forces safe mode. -/
def ESP32FailSafe.enterManualSafeMode (fs : ESP32FailSafe σ) (w : σ) : Outcome σ :=
  fs.enterSafeMode FAILSAFE_MANUAL "Manually triggered safe mode." w

/-- Return true if we are currently in safe mode. -/
def ESP32FailSafe.inSafeMode (fs : ESP32FailSafe σ) : Bool :=
  fs.safeMode

/-- Return text description of last failure reason. -/
def ESP32FailSafe.getLastResetReason (fs : ESP32FailSafe σ) : String :=
  if fs.reason = FAILSAFE_NONE then "No fail"
  else if fs.reason = FAILSAFE_LOOP_TIMEOUT then "Loop timeout"
  else if fs.reason = FAILSAFE_CRITICAL_ERROR then "Critical error"
  else if fs.reason = FAILSAFE_MANUAL then "Manual trigger"
  else "Unknown"

/-! ## The public surface as a transition system -/

/-- A call of a public member function, with its arguments. -/
inductive Op (σ : Type) where
  | begin (loopTimeoutMs : Nat)
  | feed
  | registerCheck (name : String) (checkFunc : σ → Bool × σ)
  | markCriticalError (msg : String)
  | enterManualSafeMode
  | inSafeMode
  | getLastResetReason

/-- Effect of one public call on the object and the world.  The two observers
only read a member and return it. -/
def step (b : Board σ) (fs : ESP32FailSafe σ) (w : σ) : Op σ → Outcome σ
  | .begin loopTimeoutMs => fs.begin b loopTimeoutMs w
  | .feed => fs.feed b w
  | .registerCheck name checkFunc => fs.registerCheck name checkFunc w
  | .markCriticalError msg => fs.markCriticalError msg w
  | .enterManualSafeMode => fs.enterManualSafeMode w
  | .inSafeMode => { self := fs, world := w, events := [] }
  | .getLastResetReason => { self := fs, world := w, events := [] }

/-- What the host program does in a run: it calls the supervisor, or it does
something else that changes the world (time passes, sensors change). -/
inductive Action (σ : Type) where
  | op (o : Op σ)
  | env (f : σ → σ)

/-- Effect of one action. -/
def act (b : Board σ) (fs : ESP32FailSafe σ) (w : σ) : Action σ → Outcome σ
  | .op o => step b fs w o
  | .env f => { self := fs, world := f w, events := [] }

/-- Effect of a finite sequence of actions, events accumulated in order. -/
def run (b : Board σ) (fs : ESP32FailSafe σ) (w : σ) : List (Action σ) → Outcome σ
  | [] => { self := fs, world := w, events := [] }
  | a :: rest =>
      let o := act b fs w a
      let o2 := run b o.self o.world rest
      { o2 with events := o.events ++ o2.events }

/-! ## Vocabulary of the statements -/

/-- Every predicate of the list evaluated once, in order, whatever the results:
the results and the world afterwards. -/
def evalAll : List (CheckFunction σ) → σ → List Bool × σ
  | [], w => ([], w)
  | c :: cs, w =>
      let r := c.func w
      let rest := evalAll cs r.2
      (r.1 :: rest.1, rest.2)

/-- The events of a run of the loop over the list in which every predicate
returns true: one call each, in order, the head at position `i`. -/
def passCalls : List (CheckFunction σ) → Nat → List Event
  | [], _ => []
  | c :: cs, i => .call i c.name true :: passCalls cs (i + 1)

/-- The call ended in safe mode with the given reason. -/
def Outcome.failedWith (o : Outcome σ) (r : FailSafeReason) : Prop :=
  o.self.safeMode = true ∧ o.self.reason = r

/-- The text `part` occurs in the text `whole`. -/
def Occurs (part whole : String) : Prop :=
  ∃ before after : String, whole = before ++ part ++ after

/-- Positions of the registry whose predicate was evaluated, in the order of
the evaluations. -/
def callIndices : List Event → List Nat
  | [] => []
  | .call i _ _ :: es => i :: callIndices es
  | _ :: es => callIndices es

/-- The entries that the `registerCheck` calls of a sequence of actions hand
to the supervisor, in the order of the calls. -/
def registered : List (Action σ) → List (CheckFunction σ)
  | [] => []
  | .op (.registerCheck name checkFunc) :: rest =>
      { name := name, func := checkFunc } :: registered rest
  | _ :: rest => registered rest

/-- Whether the action is a call of `begin`. -/
def Action.isBegin : Action σ → Bool
  | .op (.begin _) => true
  | _ => false

/-- What the diagnostic sink received: the writes to `Serial`, in order. -/
def serialLog (events : List Event) : List Event :=
  events.filter Event.isSerial

/-- One notification per message, in order. -/
def banners : List String → List Event
  | [] => []
  | msg :: rest => banner msg ++ banners rest

/-- The flag and the reason agree: Normal with reason None, or safe mode with
one of the three failure reasons. -/
def Consistent (fs : ESP32FailSafe σ) : Prop :=
  (fs.safeMode = false ∧ fs.reason = FAILSAFE_NONE) ∨
  (fs.safeMode = true ∧ (fs.reason = FAILSAFE_LOOP_TIMEOUT ∨
    fs.reason = FAILSAFE_CRITICAL_ERROR ∨ fs.reason = FAILSAFE_MANUAL))

/-! ## A test bench -/

/-- World of the test bench: the counter behind `millis()` and the log kept by
instrumented predicates (the names of the predicates that ran, in order). -/
structure Bench where
  clock : Nat
  calls : List String
  deriving DecidableEq, Repr

/-- A 32-bit board whose clock stands still during a call. -/
def bench32 : Board Bench :=
  { bits := 32, millis := fun w => (w.clock, w) }

/-- A 32-bit board whose clock advances by one tick after each read. -/
def ticking32 : Board Bench :=
  { bits := 32, millis := fun w => (w.clock, { w with clock := (w.clock + 1) % 2 ^ 32 }) }

/-- An instrumented predicate: it logs its name and returns `result`. -/
def probe (name : String) (result : Bool) : CheckFunction Bench :=
  { name := name
    func := fun w => (result, { w with calls := w.calls ++ [name] }) }

/-- A supervisor with the checks `[A:true, B:false, C:true]`, timeout 1000 and
last feed at 0. -/
def benchABC : ESP32FailSafe Bench :=
  { timeout := 1000
    lastFeed := 0
    safeMode := false
    reason := FAILSAFE_NONE
    checkFunctions := [probe "A" true, probe "B" false, probe "C" true] }

/-- An instrumented predicate that takes `ms` milliseconds: it logs its name,
advances the 32-bit counter by `ms` and returns `result`. -/
def slowProbe (name : String) (ms : Nat) (result : Bool) : CheckFunction Bench :=
  { name := name
    func := fun w =>
      (result, { clock := (w.clock + ms) % 2 ^ 32, calls := w.calls ++ [name] }) }

/-- A supervisor with timeout 1000, last feed at 0 and one healthy check that
takes five seconds. -/
def benchSlow : ESP32FailSafe Bench :=
  { timeout := 1000
    lastFeed := 0
    safeMode := false
    reason := FAILSAFE_NONE
    checkFunctions := [slowProbe "S" 5000 true] }

/-! ## Lemmas on the loop over the registry -/

theorem feedChecks_all_pass (b : Board σ) (fs : ESP32FailSafe σ) :
    ∀ (checks : List (CheckFunction σ)) (i : Nat) (w : σ),
      (∀ r ∈ (evalAll checks w).1, r = true) →
      fs.feedChecks b checks i w =
        { self := { fs with lastFeed := (b.millis (evalAll checks w).2).1 }
          world := (b.millis (evalAll checks w).2).2
          events := passCalls checks i ++ [.millis (b.millis (evalAll checks w).2).1] } := by
  intro checks
  induction checks with
  | nil => intro i w _; rfl
  | cons c cs ih =>
    intro i w h
    have hc : (c.func w).1 = true := h _ (by simp [evalAll])
    have hcs : ∀ r ∈ (evalAll cs (c.func w).2).1, r = true := fun r hr =>
      h r (by simp [evalAll, hr])
    simp [ESP32FailSafe.feedChecks, hc, ih (i + 1) (c.func w).2 hcs, evalAll, passCalls]

theorem feedChecks_first_failure (b : Board σ) (fs : ESP32FailSafe σ) :
    ∀ (pre : List (CheckFunction σ)) (c : CheckFunction σ)
      (post : List (CheckFunction σ)) (i : Nat) (w : σ),
      (∀ r ∈ (evalAll pre w).1, r = true) →
      (c.func (evalAll pre w).2).1 = false →
      fs.feedChecks b (pre ++ c :: post) i w =
        { self := { fs with safeMode := true, reason := FAILSAFE_CRITICAL_ERROR }
          world := (c.func (evalAll pre w).2).2
          events := passCalls pre i ++
            .call (i + pre.length) c.name false :: banner ("Check failed: " ++ c.name) } := by
  intro pre
  induction pre with
  | nil =>
    intro c post i w _ hc
    simp only [evalAll] at hc
    simp [ESP32FailSafe.feedChecks, hc, ESP32FailSafe.enterSafeMode, evalAll, passCalls]
  | cons p ps ih =>
    intro c post i w h hc
    have hp : (p.func w).1 = true := h _ (by simp [evalAll])
    have hps : ∀ r ∈ (evalAll ps (p.func w).2).1, r = true := fun r hr =>
      h r (by simp [evalAll, hr])
    simp only [evalAll] at hc
    simp [ESP32FailSafe.feedChecks, hp, ih c post (i + 1) (p.func w).2 hps hc, evalAll,
      passCalls, Nat.add_assoc, Nat.add_comm 1]

theorem exists_first_failure :
    ∀ (checks : List (CheckFunction σ)) (w : σ),
      (¬ ∀ r ∈ (evalAll checks w).1, r = true) →
      ∃ pre c post, checks = pre ++ c :: post ∧
        (∀ r ∈ (evalAll pre w).1, r = true) ∧
        (c.func (evalAll pre w).2).1 = false := by
  intro checks
  induction checks with
  | nil => intro w h; exact absurd (by simp [evalAll]) h
  | cons c cs ih =>
    intro w h
    by_cases hc : (c.func w).1 = true
    · have hcs : ¬ ∀ r ∈ (evalAll cs (c.func w).2).1, r = true := by
        intro hall
        apply h
        intro r hr
        simp only [evalAll, List.mem_cons] at hr
        rcases hr with hr | hr
        · rw [hr]; exact hc
        · exact hall r hr
      obtain ⟨pre, d, post, hreg, hpre, hd⟩ := ih (c.func w).2 hcs
      refine ⟨c :: pre, d, post, by simp [hreg], ?_, by simpa [evalAll] using hd⟩
      intro r hr
      simp only [evalAll, List.mem_cons] at hr
      rcases hr with hr | hr
      · rw [hr]; exact hc
      · exact hpre r hr
    · refine ⟨[], c, cs, rfl, by simp [evalAll], ?_⟩
      simpa [evalAll] using hc

theorem passCalls_isCall : ∀ (checks : List (CheckFunction σ)) (i : Nat),
    ∀ e ∈ passCalls checks i, e.isCall = true := by
  intro checks
  induction checks with
  | nil => intro i e he; simp [passCalls] at he
  | cons c cs ih =>
    intro i e he
    simp only [passCalls, List.mem_cons] at he
    rcases he with he | he
    · rw [he]; rfl
    · exact ih (i + 1) e he

theorem callIndices_append : ∀ (xs ys : List Event),
    callIndices (xs ++ ys) = callIndices xs ++ callIndices ys := by
  intro xs
  induction xs with
  | nil => intro ys; rfl
  | cons x xs ih =>
    intro ys
    cases x <;> simp [callIndices, ih]

theorem callIndices_passCalls : ∀ (checks : List (CheckFunction σ)) (i : Nat),
    callIndices (passCalls checks i) = List.range' i checks.length := by
  intro checks
  induction checks with
  | nil => intro i; rfl
  | cons c cs ih => intro i; simp [passCalls, callIndices, ih, List.range']

theorem callIndices_banner (msg : String) : callIndices (banner msg) = [] := rfl

theorem occurs_check_failed (name : String) : Occurs name ("Check failed: " ++ name) :=
  ⟨"Check failed: ", "", by simp⟩

/-! ## Lemmas on the flag, on sequences and on the unsigned difference -/

theorem feedChecks_flag_or_critical (b : Board σ) (fs : ESP32FailSafe σ) :
    ∀ (checks : List (CheckFunction σ)) (i : Nat) (w : σ),
      (fs.feedChecks b checks i w).self.safeMode = fs.safeMode ∨
      ((fs.feedChecks b checks i w).self.safeMode = true ∧
        (fs.feedChecks b checks i w).self.reason = FAILSAFE_CRITICAL_ERROR) := by
  intro checks
  induction checks with
  | nil => intro i w; exact Or.inl rfl
  | cons c cs ih =>
    intro i w
    by_cases hc : (c.func w).1 = true
    · simpa [ESP32FailSafe.feedChecks, hc] using ih (i + 1) (c.func w).2
    · exact Or.inr (by simp [ESP32FailSafe.feedChecks, hc, ESP32FailSafe.enterSafeMode])

theorem step_keeps_safeMode (b : Board σ) (fs : ESP32FailSafe σ) (w : σ) (op : Op σ)
    (hSafe : fs.safeMode = true) : (step b fs w op).self.safeMode = true := by
  cases op <;>
    simp [step, ESP32FailSafe.begin, ESP32FailSafe.feed, ESP32FailSafe.registerCheck,
      ESP32FailSafe.markCriticalError, ESP32FailSafe.enterManualSafeMode,
      ESP32FailSafe.enterSafeMode, hSafe]

theorem act_keeps_safeMode (b : Board σ) (fs : ESP32FailSafe σ) (w : σ) (a : Action σ)
    (hSafe : fs.safeMode = true) : (act b fs w a).self.safeMode = true := by
  cases a with
  | op o => exact step_keeps_safeMode b fs w o hSafe
  | env f => exact hSafe

theorem run_keeps_safeMode (b : Board σ) :
    ∀ (actions : List (Action σ)) (fs : ESP32FailSafe σ) (w : σ),
      fs.safeMode = true → (run b fs w actions).self.safeMode = true := by
  intro actions
  induction actions with
  | nil => intro fs w h; exact h
  | cons a rest ih =>
    intro fs w h
    simpa [run] using ih (act b fs w a).self (act b fs w a).world
      (act_keeps_safeMode b fs w a h)

theorem run_append (b : Board σ) :
    ∀ (xs ys : List (Action σ)) (fs : ESP32FailSafe σ) (w : σ),
      run b fs w (xs ++ ys) =
        { self := (run b (run b fs w xs).self (run b fs w xs).world ys).self
          world := (run b (run b fs w xs).self (run b fs w xs).world ys).world
          events := (run b fs w xs).events ++
            (run b (run b fs w xs).self (run b fs w xs).world ys).events } := by
  intro xs
  induction xs with
  | nil => intro ys fs w; simp [run]
  | cons a rest ih => intro ys fs w; simp [run, ih]

theorem usub_add (w L d : Nat) : usub w ((L + d) % 2 ^ w) L = d % 2 ^ w := by
  have hM : 0 < 2 ^ w := Nat.two_pow_pos w
  have hr : L % 2 ^ w < 2 ^ w := Nat.mod_lt _ hM
  have hL : 2 ^ w * (L / 2 ^ w) + L % 2 ^ w = L := Nat.div_add_mod L (2 ^ w)
  unfold usub
  rw [Nat.mod_add_mod]
  have hsum : L + d + (2 ^ w - L % 2 ^ w) = d + 2 ^ w * (L / 2 ^ w + 1) := by
    rw [Nat.mul_add, Nat.mul_one]
    omega
  rw [hsum, Nat.add_mul_mod_self_left]

theorem feed_late_eq (b : Board σ) (fs : ESP32FailSafe σ) (w : σ)
    (hNormal : fs.safeMode = false)
    (hLate : usub b.bits (b.millis w).1 fs.lastFeed > fs.timeout) :
    fs.feed b w =
      { self := { fs with safeMode := true, reason := FAILSAFE_LOOP_TIMEOUT }
        world := (b.millis w).2
        events := .millis (b.millis w).1 :: banner "Loop timeout detected." } := by
  simp [ESP32FailSafe.feed, hNormal, hLate, ESP32FailSafe.enterSafeMode]

theorem feed_in_time_eq (b : Board σ) (fs : ESP32FailSafe σ) (w : σ)
    (hNormal : fs.safeMode = false)
    (hInTime : usub b.bits (b.millis w).1 fs.lastFeed ≤ fs.timeout) :
    fs.feed b w =
      { self := (fs.feedChecks b fs.checkFunctions 0 (b.millis w).2).self
        world := (fs.feedChecks b fs.checkFunctions 0 (b.millis w).2).world
        events := .millis (b.millis w).1 ::
          (fs.feedChecks b fs.checkFunctions 0 (b.millis w).2).events } := by
  simp [ESP32FailSafe.feed, hNormal, Nat.not_lt.mpr hInTime]

theorem feed_in_time_not_timeout (b : Board σ) (fs : ESP32FailSafe σ) (w : σ)
    (hNormal : fs.safeMode = false)
    (hInTime : usub b.bits (b.millis w).1 fs.lastFeed ≤ fs.timeout) :
    ¬ (fs.feed b w).failedWith FAILSAFE_LOOP_TIMEOUT := by
  intro hfail
  rw [feed_in_time_eq b fs w hNormal hInTime] at hfail
  rcases feedChecks_flag_or_critical b fs fs.checkFunctions 0 (b.millis w).2 with h | h
  · have h1 := hfail.1
    simp only [h, hNormal] at h1
    exact Bool.noConfusion h1
  · have h2 := hfail.2
    simp only [h.2] at h2
    exact absurd h2 (by decide)

/-! ## feed -/

/-- C1: a `feed()` in Normal state whose clock reading is more than the timeout
past the last feed (unsigned difference) ends in safe mode with reason
LoopTimeout, whatever the registry holds; its only interactions are the clock
read and the banner, so no registered predicate is evaluated, the world is the
one the clock read left, and the other members are untouched.  The timeout may
be any value, zero included. -/
theorem feed_timeout (b : Board σ) (fs : ESP32FailSafe σ) (w : σ)
    (hNormal : fs.safeMode = false)
    (hLate : usub b.bits (b.millis w).1 fs.lastFeed > fs.timeout) :
    (fs.feed b w).failedWith FAILSAFE_LOOP_TIMEOUT ∧
    (fs.feed b w).events = .millis (b.millis w).1 :: banner "Loop timeout detected." ∧
    (∀ e ∈ (fs.feed b w).events, e.isCall = false) ∧
    callIndices (fs.feed b w).events = [] ∧
    (fs.feed b w).world = (b.millis w).2 ∧
    (fs.feed b w).self.lastFeed = fs.lastFeed ∧
    (fs.feed b w).self.timeout = fs.timeout ∧
    (fs.feed b w).self.checkFunctions = fs.checkFunctions := by
  rw [feed_late_eq b fs w hNormal hLate]
  refine ⟨⟨rfl, rfl⟩, rfl, ?_, rfl, rfl, rfl, rfl, rfl⟩
  intro e he
  simp only [banner, List.mem_cons, List.mem_singleton, List.not_mem_nil, or_false] at he
  rcases he with he | he | he | he | he | he <;> rw [he] <;> rfl

/-- Witness of C1: timeout 1000, last feed at 0, clock at 1001 and the checks
A, B, C registered: LoopTimeout, and the instrumentation log stays empty. -/
theorem feed_timeout_witness :
    (benchABC.feed bench32 ⟨1001, []⟩).failedWith FAILSAFE_LOOP_TIMEOUT ∧
    (benchABC.feed bench32 ⟨1001, []⟩).world.calls = [] :=
  ⟨(feed_timeout bench32 benchABC ⟨1001, []⟩ rfl (by decide)).1, by decide⟩

/-- C2: a `feed()` in Normal state whose elapsed time (unsigned difference of
the clock reading and the last feed) is at most the timeout, and whose
registered predicates all return true, leaves the flag false and the reason as
it was (None in a Normal state with reason None), and stores in `lastFeed` the
value `millis()` returns when the assignment runs, that is after the checks;
each predicate is evaluated once, in registration order.  The timeout may be
any value, zero included. -/
theorem feed_ok (b : Board σ) (fs : ESP32FailSafe σ) (w : σ)
    (hNormal : fs.safeMode = false)
    (hInTime : usub b.bits (b.millis w).1 fs.lastFeed ≤ fs.timeout)
    (hPass : ∀ r ∈ (evalAll fs.checkFunctions (b.millis w).2).1, r = true) :
    (fs.feed b w).self.safeMode = false ∧
    (fs.feed b w).self.reason = fs.reason ∧
    (fs.reason = FAILSAFE_NONE → (fs.feed b w).self.reason = FAILSAFE_NONE) ∧
    (fs.feed b w).self.lastFeed =
      (b.millis (evalAll fs.checkFunctions (b.millis w).2).2).1 ∧
    (fs.feed b w).self.timeout = fs.timeout ∧
    (fs.feed b w).self.checkFunctions = fs.checkFunctions ∧
    (fs.feed b w).events = .millis (b.millis w).1 :: (passCalls fs.checkFunctions 0 ++
      [.millis (b.millis (evalAll fs.checkFunctions (b.millis w).2).2).1]) := by
  have hfeed : fs.feed b w =
      { self := { fs with
          lastFeed := (b.millis (evalAll fs.checkFunctions (b.millis w).2).2).1 }
        world := (b.millis (evalAll fs.checkFunctions (b.millis w).2).2).2
        events := .millis (b.millis w).1 :: (passCalls fs.checkFunctions 0 ++
          [.millis (b.millis (evalAll fs.checkFunctions (b.millis w).2).2).1]) } := by
    simp [ESP32FailSafe.feed, hNormal, Nat.not_lt.mpr hInTime,
      feedChecks_all_pass b fs fs.checkFunctions 0 (b.millis w).2 hPass]
  rw [hfeed]
  exact ⟨hNormal, rfl, fun h => h, rfl, rfl, rfl, rfl⟩

/-- Witness of C2: timeout 1000, last feed at 0, two passing checks and the
clock at 1000 (the boundary): Normal, reason None, `lastFeed` 1000. -/
theorem feed_ok_witness :
    (({ benchABC with checkFunctions := [probe "A" true, probe "C" true] } :
        ESP32FailSafe Bench).feed bench32 ⟨1000, []⟩).self.safeMode = false ∧
    (({ benchABC with checkFunctions := [probe "A" true, probe "C" true] } :
        ESP32FailSafe Bench).feed bench32 ⟨1000, []⟩).self.reason = FAILSAFE_NONE ∧
    (({ benchABC with checkFunctions := [probe "A" true, probe "C" true] } :
        ESP32FailSafe Bench).feed bench32 ⟨1000, []⟩).self.lastFeed = 1000 :=
  have h := feed_ok bench32
    { benchABC with checkFunctions := [probe "A" true, probe "C" true] } ⟨1000, []⟩
    rfl (by decide) (by decide)
  ⟨h.1, h.2.2.1 rfl, h.2.2.2.1⟩

/-- C3: in a `feed()` in Normal state that does not time out, if some registered
predicate returns false, then the call ends in safe mode with reason
CriticalError, and the registry splits as `pre ++ c :: post` where `c` is the
first predicate that returned false: the line printed as the reason is
"Check failed: " followed by the name of `c`, so it contains that name; the
predicates evaluated are those at positions `0 .. pre.length`, each once and
in registration order, all of `pre` returning true, and none of `post` is
evaluated; `lastFeed` is not updated. -/
theorem feed_check_failed (b : Board σ) (fs : ESP32FailSafe σ) (w : σ)
    (hNormal : fs.safeMode = false)
    (hInTime : usub b.bits (b.millis w).1 fs.lastFeed ≤ fs.timeout)
    (hFail : ¬ ∀ r ∈ (evalAll fs.checkFunctions (b.millis w).2).1, r = true) :
    (fs.feed b w).failedWith FAILSAFE_CRITICAL_ERROR ∧
    (fs.feed b w).self.lastFeed = fs.lastFeed ∧
    ∃ pre c post,
      fs.checkFunctions = pre ++ c :: post ∧
      (∀ r ∈ (evalAll pre (b.millis w).2).1, r = true) ∧
      (c.func (evalAll pre (b.millis w).2).2).1 = false ∧
      (fs.feed b w).events = .millis (b.millis w).1 :: (passCalls pre 0 ++
        .call pre.length c.name false :: banner ("Check failed: " ++ c.name)) ∧
      Event.println ("Check failed: " ++ c.name) ∈ (fs.feed b w).events ∧
      Occurs c.name ("Check failed: " ++ c.name) ∧
      callIndices (fs.feed b w).events = List.range (pre.length + 1) ∧
      (fs.feed b w).world = (c.func (evalAll pre (b.millis w).2).2).2 := by
  obtain ⟨pre, c, post, hreg, hpre, hc⟩ :=
    exists_first_failure fs.checkFunctions (b.millis w).2 hFail
  have hfeed : fs.feed b w =
      { self := { fs with safeMode := true, reason := FAILSAFE_CRITICAL_ERROR }
        world := (c.func (evalAll pre (b.millis w).2).2).2
        events := .millis (b.millis w).1 :: (passCalls pre 0 ++
          .call pre.length c.name false :: banner ("Check failed: " ++ c.name)) } := by
    simp [ESP32FailSafe.feed, hNormal, Nat.not_lt.mpr hInTime, hreg,
      feedChecks_first_failure b fs pre c post 0 (b.millis w).2 hpre hc]
  rw [hfeed]
  refine ⟨⟨rfl, rfl⟩, rfl, pre, c, post, hreg, hpre, hc, rfl, ?_, occurs_check_failed c.name,
    ?_, rfl⟩
  · simp [banner]
  · simp [callIndices, callIndices_append, callIndices_passCalls, callIndices_banner,
      List.range_eq_range', List.range'_concat]

/-- Witness of C3: the checks `[A:true, B:false, C:true]`: CriticalError, the
reason line "Check failed: B" is printed, and the instrumentation log shows
one run of A, one of B and none of C. -/
theorem feed_check_failed_witness :
    (benchABC.feed bench32 ⟨500, []⟩).failedWith FAILSAFE_CRITICAL_ERROR ∧
    Event.println "Check failed: B" ∈ (benchABC.feed bench32 ⟨500, []⟩).events ∧
    (benchABC.feed bench32 ⟨500, []⟩).world.calls = ["A", "B"] ∧
    callIndices (benchABC.feed bench32 ⟨500, []⟩).events = [0, 1] :=
  ⟨(feed_check_failed bench32 benchABC ⟨500, []⟩ rfl (by decide) (by decide)).1,
    by decide, by decide, by decide⟩

/-- C4: in safe mode `feed()` is a no-op: the object (flag, reason, `lastFeed`,
timeout and registry) and the world are returned as they were and the call has
no interaction with the clock, the predicates or `Serial`. -/
theorem feed_safeMode_noop (b : Board σ) (fs : ESP32FailSafe σ) (w : σ)
    (hSafe : fs.safeMode = true) :
    fs.feed b w = { self := fs, world := w, events := [] } := by
  simp [ESP32FailSafe.feed, hSafe]

/-- Witness of C4: after a failed check, a second `feed()`, one hour later,
changes nothing and evaluates nothing. -/
theorem feed_safeMode_noop_witness :
    (benchABC.feed bench32 ⟨500, []⟩).self.feed bench32 ⟨3600000, []⟩ =
      { self := (benchABC.feed bench32 ⟨500, []⟩).self
        world := ⟨3600000, []⟩
        events := [] } :=
  feed_safeMode_noop bench32 (benchABC.feed bench32 ⟨500, []⟩).self ⟨3600000, []⟩ (by decide)

/-! ## The explicit triggers -/

/-- C5: from every state, world and message, `markCriticalError(msg)` ends with
the flag true and reason CriticalError and `enterManualSafeMode()` ends with
the flag true and reason Manual; the only interactions of either are the five
`Serial` calls of the banner, so neither evaluates a predicate nor reads the
clock, and the world is unchanged. -/
theorem triggers_force_safeMode (fs : ESP32FailSafe σ) (w : σ) (msg : String) :
    (fs.markCriticalError msg w).failedWith FAILSAFE_CRITICAL_ERROR ∧
    (fs.markCriticalError msg w).events = banner msg ∧
    (∀ e ∈ (fs.markCriticalError msg w).events, e.isCall = false ∧ e.isMillis = false) ∧
    (fs.markCriticalError msg w).world = w ∧
    (fs.enterManualSafeMode w).failedWith FAILSAFE_MANUAL ∧
    (fs.enterManualSafeMode w).events = banner "Manually triggered safe mode." ∧
    (∀ e ∈ (fs.enterManualSafeMode w).events, e.isCall = false ∧ e.isMillis = false) ∧
    (fs.enterManualSafeMode w).world = w := by
  refine ⟨⟨rfl, rfl⟩, rfl, ?_, rfl, ⟨rfl, rfl⟩, rfl, ?_, rfl⟩
  · intro e he
    simp only [ESP32FailSafe.markCriticalError, ESP32FailSafe.enterSafeMode, banner,
      List.mem_cons, List.mem_singleton, List.not_mem_nil, or_false] at he
    rcases he with he | he | he | he | he <;> rw [he] <;> exact ⟨rfl, rfl⟩
  · intro e he
    simp only [ESP32FailSafe.enterManualSafeMode, ESP32FailSafe.enterSafeMode, banner,
      List.mem_cons, List.mem_singleton, List.not_mem_nil, or_false] at he
    rcases he with he | he | he | he | he <;> rw [he] <;> exact ⟨rfl, rfl⟩

/-! ## Safe mode -/

/-- Counterexample to C6: a fresh supervisor put in safe mode by
`enterManualSafeMode()` has reason Manual and `lastFeed` 0; a following
`markCriticalError("X")` changes the reason to CriticalError, and a following
`begin(3000)` at clock reading 7 changes `lastFeed` to 7. -/
theorem safeMode_frame_counterexample :
    ((ESP32FailSafe.new : ESP32FailSafe Bench).enterManualSafeMode ⟨0, []⟩).self.safeMode
      = true ∧
    (step bench32 ((ESP32FailSafe.new : ESP32FailSafe Bench).enterManualSafeMode ⟨0, []⟩).self
        ⟨7, []⟩ (.markCriticalError "X")).self.reason ≠
      ((ESP32FailSafe.new : ESP32FailSafe Bench).enterManualSafeMode ⟨0, []⟩).self.reason ∧
    (step bench32 ((ESP32FailSafe.new : ESP32FailSafe Bench).enterManualSafeMode ⟨0, []⟩).self
        ⟨7, []⟩ (.begin 3000)).self.lastFeed ≠
      ((ESP32FailSafe.new : ESP32FailSafe Bench).enterManualSafeMode ⟨0, []⟩).self.lastFeed := by
  decide

/-- C6 as amended: in safe mode, `feed`, `registerCheck`, `inSafeMode` and
`getLastResetReason` change neither the reason nor `lastFeed`;
`markCriticalError` and `enterManualSafeMode` leave `lastFeed` unchanged and
set the reason to CriticalError and Manual; `begin` leaves the reason unchanged
and sets `lastFeed` to the clock reading. -/
theorem safeMode_frame (b : Board σ) (fs : ESP32FailSafe σ) (w : σ)
    (hSafe : fs.safeMode = true) :
    ((step b fs w .feed).self.reason = fs.reason ∧
      (step b fs w .feed).self.lastFeed = fs.lastFeed) ∧
    (∀ name checkFunc,
      (step b fs w (.registerCheck name checkFunc)).self.reason = fs.reason ∧
      (step b fs w (.registerCheck name checkFunc)).self.lastFeed = fs.lastFeed) ∧
    ((step b fs w .inSafeMode).self.reason = fs.reason ∧
      (step b fs w .inSafeMode).self.lastFeed = fs.lastFeed) ∧
    ((step b fs w .getLastResetReason).self.reason = fs.reason ∧
      (step b fs w .getLastResetReason).self.lastFeed = fs.lastFeed) ∧
    (∀ msg,
      (step b fs w (.markCriticalError msg)).self.reason = FAILSAFE_CRITICAL_ERROR ∧
      (step b fs w (.markCriticalError msg)).self.lastFeed = fs.lastFeed) ∧
    ((step b fs w .enterManualSafeMode).self.reason = FAILSAFE_MANUAL ∧
      (step b fs w .enterManualSafeMode).self.lastFeed = fs.lastFeed) ∧
    (∀ loopTimeoutMs,
      (step b fs w (.begin loopTimeoutMs)).self.reason = fs.reason ∧
      (step b fs w (.begin loopTimeoutMs)).self.lastFeed = (b.millis w).1) := by
  refine ⟨?_, fun _ _ => ⟨rfl, rfl⟩, ⟨rfl, rfl⟩, ⟨rfl, rfl⟩, fun _ => ⟨rfl, rfl⟩, ⟨rfl, rfl⟩,
    fun _ => ⟨rfl, rfl⟩⟩
  simp [step, ESP32FailSafe.feed, hSafe]

/-- Witness of C6 as amended: the supervisor that a failed check B put in safe
mode keeps reason CriticalError and `lastFeed` 0 over a later `feed()`. -/
theorem safeMode_frame_witness :
    (step bench32 (benchABC.feed bench32 ⟨500, []⟩).self ⟨9000, []⟩ .feed).self.reason =
      FAILSAFE_CRITICAL_ERROR ∧
    (step bench32 (benchABC.feed bench32 ⟨500, []⟩).self ⟨9000, []⟩ .feed).self.lastFeed = 0 :=
  (safeMode_frame bench32 (benchABC.feed bench32 ⟨500, []⟩).self ⟨9000, []⟩ (by decide)).1

/-- C7: `inSafeMode()` is false on a freshly constructed instance, and safe mode
is terminal: along every finite sequence of public calls (`begin`, `feed`,
`registerCheck`, `markCriticalError`, `enterManualSafeMode` and the observers,
with any arguments) interleaved with arbitrary changes of the world (clock
readings, predicate results), from any state, if `inSafeMode()` is true after
a prefix of the sequence then it is true after every longer prefix. -/
theorem safeMode_terminal (b : Board σ) (fs : ESP32FailSafe σ) (w : σ)
    (before after : List (Action σ))
    (hSafe : (run b fs w before).self.inSafeMode = true) :
    (ESP32FailSafe.new : ESP32FailSafe σ).inSafeMode = false ∧
    (run b fs w (before ++ after)).self.inSafeMode = true := by
  refine ⟨rfl, ?_⟩
  rw [run_append]
  exact run_keeps_safeMode b after _ _ hSafe

/-- Witness of C7: a fresh supervisor with check B failing enters safe mode at
its first `feed()`, and is still in safe mode after `begin`, a passing check
registered, a day of time and another `feed()`. -/
theorem safeMode_terminal_witness :
    (run bench32 (ESP32FailSafe.new : ESP32FailSafe Bench) ⟨0, []⟩
      ([.op (.registerCheck "B" (probe "B" false).func), .op .feed] ++
        [.op (.begin 5), .op (.registerCheck "A" (probe "A" true).func),
          .env (fun w => { w with clock := 86400000 }), .op .feed])).self.inSafeMode = true :=
  (safeMode_terminal bench32 ESP32FailSafe.new ⟨0, []⟩
    [.op (.registerCheck "B" (probe "B" false).func), .op .feed]
    [.op (.begin 5), .op (.registerCheck "A" (probe "A" true).func),
      .env (fun w => { w with clock := 86400000 }), .op .feed] (by decide)).2

/-! ## Clock rollover and the zero timeout -/

/-- C8: for a counter of `bits` bits, a last feed at `lastFeed`, a true elapsed
time `d < 2 ^ bits` and a clock reading `(lastFeed + d) mod 2 ^ bits`, the
unsigned difference computed by `feed()` is `d`, and a `feed()` in Normal state
ends in safe mode with reason LoopTimeout if and only if `d` exceeds the
timeout; so a counter that wrapped between two feeds reports no timeout when
`d` is within the timeout. -/
theorem feed_timeout_iff_elapsed (b : Board σ) (fs : ESP32FailSafe σ) (w : σ) (d : Nat)
    (hNormal : fs.safeMode = false)
    (hd : d < 2 ^ b.bits)
    (hNow : (b.millis w).1 = (fs.lastFeed + d) % 2 ^ b.bits) :
    usub b.bits (b.millis w).1 fs.lastFeed = d ∧
    ((fs.feed b w).failedWith FAILSAFE_LOOP_TIMEOUT ↔ d > fs.timeout) := by
  have hsub : usub b.bits (b.millis w).1 fs.lastFeed = d := by
    rw [hNow, usub_add, Nat.mod_eq_of_lt hd]
  refine ⟨hsub, ?_, ?_⟩
  · intro hfail
    by_contra hle
    exact feed_in_time_not_timeout b fs w hNormal (by rw [hsub]; exact Nat.not_lt.mp hle) hfail
  · intro hgt
    rw [feed_late_eq b fs w hNormal (by rw [hsub]; exact hgt)]
    exact ⟨rfl, rfl⟩

/-- Witness of C8: a 32-bit counter, last feed at `2 ^ 32 - 6`, true elapsed
time 11, so the counter wrapped and reads 5; with timeout 1000 the unsigned
difference is 11 and no timeout is reported. -/
theorem feed_timeout_iff_elapsed_witness :
    usub 32 5 4294967290 = 11 ∧
    ¬ (({ benchABC with lastFeed := 4294967290 } : ESP32FailSafe Bench).feed bench32
        ⟨5, []⟩).failedWith FAILSAFE_LOOP_TIMEOUT :=
  have h := feed_timeout_iff_elapsed bench32
    ({ benchABC with lastFeed := 4294967290 } : ESP32FailSafe Bench) ⟨5, []⟩ 11
    rfl (by decide) (by decide)
  ⟨h.1, fun hfail => absurd (h.2.mp hfail) (by decide)⟩

/-- C9: after `begin(0)` at clock reading `t0` on a supervisor in Normal state,
and with any registry `checks` in place at the next `feed()`, a `feed()` at
clock reading `t1` whose unsigned difference `t1 - t0` is nonzero ends in safe
mode with reason LoopTimeout, and a `feed()` whose unsigned difference is zero
does not end in LoopTimeout. -/
theorem zero_timeout (b : Board σ) (fs : ESP32FailSafe σ) (w0 w1 : σ)
    (checks : List (CheckFunction σ))
    (hNormal : fs.safeMode = false) :
    (fs.begin b 0 w0).self.timeout = 0 ∧
    (fs.begin b 0 w0).self.lastFeed = (b.millis w0).1 ∧
    (usub b.bits (b.millis w1).1 (b.millis w0).1 ≠ 0 →
      (({ (fs.begin b 0 w0).self with checkFunctions := checks } :
        ESP32FailSafe σ).feed b w1).failedWith FAILSAFE_LOOP_TIMEOUT) ∧
    (usub b.bits (b.millis w1).1 (b.millis w0).1 = 0 →
      ¬ (({ (fs.begin b 0 w0).self with checkFunctions := checks } :
        ESP32FailSafe σ).feed b w1).failedWith FAILSAFE_LOOP_TIMEOUT) := by
  have hN : ({ (fs.begin b 0 w0).self with checkFunctions := checks } :
      ESP32FailSafe σ).safeMode = false := hNormal
  refine ⟨rfl, rfl, ?_, ?_⟩
  · intro hne
    rw [feed_late_eq b _ w1 hN (Nat.pos_of_ne_zero hne)]
    exact ⟨rfl, rfl⟩
  · intro hz
    exact feed_in_time_not_timeout b _ w1 hN (Nat.le_of_eq hz)

/-- Witness of C9: `begin(0)` at clock 100 on a fresh supervisor, then the
checks A, B, C in the registry; a `feed()` at clock 101 ends in LoopTimeout
and runs no check, a `feed()` at clock 100 does not end in LoopTimeout. -/
theorem zero_timeout_witness :
    (({ ((ESP32FailSafe.new : ESP32FailSafe Bench).begin bench32 0 ⟨100, []⟩).self with
        checkFunctions := benchABC.checkFunctions } : ESP32FailSafe Bench).feed bench32
      ⟨101, []⟩).failedWith FAILSAFE_LOOP_TIMEOUT ∧
    (({ ((ESP32FailSafe.new : ESP32FailSafe Bench).begin bench32 0 ⟨100, []⟩).self with
        checkFunctions := benchABC.checkFunctions } : ESP32FailSafe Bench).feed bench32
      ⟨101, []⟩).world.calls = [] ∧
    (({ ((ESP32FailSafe.new : ESP32FailSafe Bench).begin bench32 0 ⟨100, []⟩).self with
        checkFunctions := benchABC.checkFunctions } : ESP32FailSafe Bench).feed bench32
      ⟨100, []⟩).self.reason = FAILSAFE_CRITICAL_ERROR :=
  ⟨(zero_timeout bench32 ESP32FailSafe.new ⟨100, []⟩ ⟨101, []⟩ benchABC.checkFunctions
      rfl).2.2.1 (by decide),
    by decide, by decide⟩

/-! ## The reason text -/

/-- C10: `getLastResetReason()` returns "No fail" for None, "Loop timeout" for
LoopTimeout, "Critical error" for CriticalError, "Manual trigger" for Manual
and "Unknown" for every other value of the enum; the four texts of the named
reasons are pairwise different; and the call leaves the object and the world
as they were and touches no collaborator. -/
theorem getLastResetReason_table (b : Board σ) (fs : ESP32FailSafe σ) (w : σ)
    (r : FailSafeReason)
    (hOther : r ≠ FAILSAFE_NONE ∧ r ≠ FAILSAFE_LOOP_TIMEOUT ∧
      r ≠ FAILSAFE_CRITICAL_ERROR ∧ r ≠ FAILSAFE_MANUAL) :
    ({ fs with reason := FAILSAFE_NONE }).getLastResetReason = "No fail" ∧
    ({ fs with reason := FAILSAFE_LOOP_TIMEOUT }).getLastResetReason = "Loop timeout" ∧
    ({ fs with reason := FAILSAFE_CRITICAL_ERROR }).getLastResetReason = "Critical error" ∧
    ({ fs with reason := FAILSAFE_MANUAL }).getLastResetReason = "Manual trigger" ∧
    ({ fs with reason := r }).getLastResetReason = "Unknown" ∧
    ["No fail", "Loop timeout", "Critical error", "Manual trigger"].Nodup ∧
    step b fs w .getLastResetReason = { self := fs, world := w, events := [] } := by
  refine ⟨rfl, rfl, rfl, rfl, ?_, by decide, rfl⟩
  obtain ⟨h0, h1, h2, h3⟩ := hOther
  simp [ESP32FailSafe.getLastResetReason, h0, h1, h2, h3]

/-- Witness of C10: the enum value 7 is none of the four enumerators and reads
"Unknown". -/
theorem getLastResetReason_table_witness :
    ({ (ESP32FailSafe.new : ESP32FailSafe Bench) with reason := 7 }).getLastResetReason =
      "Unknown" :=
  (getLastResetReason_table bench32 ESP32FailSafe.new ⟨0, []⟩ 7 (by decide)).2.2.2.2.1

/-! ## Lemmas on what a call leaves behind -/

theorem feedChecks_cases (b : Board σ) (fs : ESP32FailSafe σ) :
    ∀ (checks : List (CheckFunction σ)) (i : Nat) (w : σ),
      (∃ t, (fs.feedChecks b checks i w).self = { fs with lastFeed := t } ∧
        serialLog (fs.feedChecks b checks i w).events = []) ∨
      ((fs.feedChecks b checks i w).self =
          { fs with safeMode := true, reason := FAILSAFE_CRITICAL_ERROR } ∧
        ∃ msg, serialLog (fs.feedChecks b checks i w).events = banner msg) := by
  intro checks
  induction checks with
  | nil => intro i w; exact Or.inl ⟨(b.millis w).1, rfl, rfl⟩
  | cons c cs ih =>
    intro i w
    by_cases hc : (c.func w).1 = true
    · rcases ih (i + 1) (c.func w).2 with ⟨t, hs, hl⟩ | ⟨hs, msg, hl⟩
      · refine Or.inl ⟨t, ?_, ?_⟩
        · simpa [ESP32FailSafe.feedChecks, hc] using hs
        · simpa [ESP32FailSafe.feedChecks, hc, serialLog, Event.isSerial] using hl
      · refine Or.inr ⟨?_, msg, ?_⟩
        · simpa [ESP32FailSafe.feedChecks, hc] using hs
        · simpa [ESP32FailSafe.feedChecks, hc, serialLog, Event.isSerial] using hl
    · refine Or.inr ⟨?_, "Check failed: " ++ c.name, ?_⟩
      · simp [ESP32FailSafe.feedChecks, hc, ESP32FailSafe.enterSafeMode]
      · simp [ESP32FailSafe.feedChecks, hc, ESP32FailSafe.enterSafeMode, serialLog,
          Event.isSerial, banner]

theorem feed_cases (b : Board σ) (fs : ESP32FailSafe σ) (w : σ)
    (hNormal : fs.safeMode = false) :
    ((fs.feed b w).self = { fs with safeMode := true, reason := FAILSAFE_LOOP_TIMEOUT } ∧
      serialLog (fs.feed b w).events = banner "Loop timeout detected.") ∨
    (∃ t, (fs.feed b w).self = { fs with lastFeed := t } ∧
      serialLog (fs.feed b w).events = []) ∨
    ((fs.feed b w).self = { fs with safeMode := true, reason := FAILSAFE_CRITICAL_ERROR } ∧
      ∃ msg, serialLog (fs.feed b w).events = banner msg) := by
  by_cases hLate : usub b.bits (b.millis w).1 fs.lastFeed > fs.timeout
  · rw [feed_late_eq b fs w hNormal hLate]
    exact Or.inl ⟨rfl, rfl⟩
  · rw [feed_in_time_eq b fs w hNormal (Nat.not_lt.mp hLate)]
    rcases feedChecks_cases b fs fs.checkFunctions 0 (b.millis w).2 with
      ⟨t, hs, hl⟩ | ⟨hs, msg, hl⟩
    · exact Or.inr (Or.inl ⟨t, hs, by simpa [serialLog, Event.isSerial] using hl⟩)
    · exact Or.inr (Or.inr ⟨hs, msg, by simpa [serialLog, Event.isSerial] using hl⟩)

theorem feed_keeps_registry_timeout (b : Board σ) (fs : ESP32FailSafe σ) (w : σ) :
    (fs.feed b w).self.checkFunctions = fs.checkFunctions ∧
    (fs.feed b w).self.timeout = fs.timeout := by
  cases hN : fs.safeMode with
  | true => simp [ESP32FailSafe.feed, hN]
  | false =>
    rcases feed_cases b fs w hN with ⟨hs, _⟩ | ⟨t, hs, _⟩ | ⟨hs, _⟩ <;> rw [hs] <;>
      exact ⟨rfl, rfl⟩

theorem feed_failed_keeps_lastFeed (b : Board σ) (fs : ESP32FailSafe σ) (w : σ)
    (hEnd : (fs.feed b w).self.safeMode = true) :
    (fs.feed b w).self.lastFeed = fs.lastFeed := by
  cases hN : fs.safeMode with
  | true => simp [ESP32FailSafe.feed, hN]
  | false =>
    rcases feed_cases b fs w hN with ⟨hs, _⟩ | ⟨t, hs, _⟩ | ⟨hs, _⟩
    · rw [hs]
    · rw [hs] at hEnd
      simp only [hN] at hEnd
      exact Bool.noConfusion hEnd
    · rw [hs]

theorem step_registry (b : Board σ) (fs : ESP32FailSafe σ) (w : σ) (op : Op σ) :
    (step b fs w op).self.checkFunctions = fs.checkFunctions ++ registered [.op op] := by
  cases op with
  | feed => simpa [step, registered] using (feed_keeps_registry_timeout b fs w).1
  | registerCheck name checkFunc => rfl
  | _ => simp [step, registered, ESP32FailSafe.begin, ESP32FailSafe.markCriticalError,
      ESP32FailSafe.enterManualSafeMode, ESP32FailSafe.enterSafeMode]

theorem registered_cons (a : Action σ) (rest : List (Action σ)) :
    registered (a :: rest) = registered [a] ++ registered rest := by
  cases a with
  | op o => cases o <;> simp [registered]
  | env f => simp [registered]

theorem run_registry (b : Board σ) :
    ∀ (actions : List (Action σ)) (fs : ESP32FailSafe σ) (w : σ),
      (run b fs w actions).self.checkFunctions = fs.checkFunctions ++ registered actions := by
  intro actions
  induction actions with
  | nil => intro fs w; simp [run, registered]
  | cons a rest ih =>
    intro fs w
    have hact : (act b fs w a).self.checkFunctions = fs.checkFunctions ++ registered [a] := by
      cases a with
      | op o => exact step_registry b fs w o
      | env f => simp [act, registered]
    rw [registered_cons a rest]
    simp [run, ih, hact]

theorem step_timeout (b : Board σ) (fs : ESP32FailSafe σ) (w : σ) (op : Op σ)
    (hOp : Action.isBegin (.op op) = false) :
    (step b fs w op).self.timeout = fs.timeout := by
  cases op with
  | begin t => simp [Action.isBegin] at hOp
  | feed => exact (feed_keeps_registry_timeout b fs w).2
  | _ => rfl

theorem run_timeout (b : Board σ) :
    ∀ (actions : List (Action σ)) (fs : ESP32FailSafe σ) (w : σ),
      (∀ a ∈ actions, a.isBegin = false) →
      (run b fs w actions).self.timeout = fs.timeout := by
  intro actions
  induction actions with
  | nil => intro fs w _; rfl
  | cons a rest ih =>
    intro fs w h
    have hact : (act b fs w a).self.timeout = fs.timeout := by
      cases a with
      | op o => exact step_timeout b fs w o (h _ (List.mem_cons_self _ _))
      | env f => rfl
    have hrest := ih (act b fs w a).self (act b fs w a).world
      (fun x hx => h x (List.mem_cons_of_mem _ hx))
    simpa [run, hact] using hrest

/-! ## The registry, the last-feed timestamp and the time budget -/

/-- C11: in every state, safe mode included, and whatever names the registry
already holds, `registerCheck(name, checkFunc)` leaves the registry as it was
followed by the one entry `(name, checkFunc)`, changes neither the flag, the
reason, the timeout nor `lastFeed`, and touches neither the world nor a
collaborator; and after any sequence of actions the registry is the initial
registry followed by the entries of the `registerCheck` calls of the sequence,
in the order of the calls. -/
theorem registerCheck_appends (b : Board σ) (fs : ESP32FailSafe σ) (w : σ)
    (name : String) (checkFunc : σ → Bool × σ) (actions : List (Action σ)) :
    (fs.registerCheck name checkFunc w).self.checkFunctions =
      fs.checkFunctions ++ [{ name := name, func := checkFunc }] ∧
    (fs.registerCheck name checkFunc w).self.safeMode = fs.safeMode ∧
    (fs.registerCheck name checkFunc w).self.reason = fs.reason ∧
    (fs.registerCheck name checkFunc w).self.timeout = fs.timeout ∧
    (fs.registerCheck name checkFunc w).self.lastFeed = fs.lastFeed ∧
    (fs.registerCheck name checkFunc w).world = w ∧
    (fs.registerCheck name checkFunc w).events = [] ∧
    (run b fs w actions).self.checkFunctions = fs.checkFunctions ++ registered actions :=
  ⟨rfl, rfl, rfl, rfl, rfl, rfl, rfl, run_registry b actions fs w⟩

/-- C12: a `feed()` that ends in safe mode (it was called in safe mode, it timed
out, or a check failed) leaves `lastFeed` as it was, and so does every call of
`registerCheck`, `markCriticalError` and `enterManualSafeMode`. -/
theorem lastFeed_frame (b : Board σ) (fs : ESP32FailSafe σ) (w : σ)
    (name : String) (checkFunc : σ → Bool × σ) (msg : String)
    (hEnd : (fs.feed b w).self.safeMode = true) :
    (fs.feed b w).self.lastFeed = fs.lastFeed ∧
    (fs.registerCheck name checkFunc w).self.lastFeed = fs.lastFeed ∧
    (fs.markCriticalError msg w).self.lastFeed = fs.lastFeed ∧
    (fs.enterManualSafeMode w).self.lastFeed = fs.lastFeed :=
  ⟨feed_failed_keeps_lastFeed b fs w hEnd, rfl, rfl, rfl⟩

/-- Witness of C12: last feed at 0; the `feed()` at clock 500 in which check B
fails, and the `feed()` at clock 1001 that times out, both leave `lastFeed`
at 0. -/
theorem lastFeed_frame_witness :
    (benchABC.feed bench32 ⟨500, []⟩).self.lastFeed = 0 ∧
    (benchABC.feed bench32 ⟨1001, []⟩).self.lastFeed = 0 :=
  ⟨(lastFeed_frame bench32 benchABC ⟨500, []⟩ "A" (probe "A" true).func "X" (by decide)).1,
    (lastFeed_frame bench32 benchABC ⟨1001, []⟩ "A" (probe "A" true).func "X" (by decide)).1⟩

/-- C13: `feed`, `registerCheck`, `markCriticalError`, `enterManualSafeMode`,
`inSafeMode` and `getLastResetReason` leave the timeout as it was, in every
state; so after `begin(T)` and any sequence of actions without a further
`begin` the timeout is `T`, and a `feed()` in Normal state then ends in
LoopTimeout exactly when the unsigned difference of the clock reading and
`lastFeed` exceeds `T`. -/
theorem timeout_immutable (b : Board σ) (fs : ESP32FailSafe σ) (w w0 w1 : σ) (T : Nat)
    (actions : List (Action σ))
    (hNoBegin : ∀ a ∈ actions, a.isBegin = false) :
    (step b fs w .feed).self.timeout = fs.timeout ∧
    (∀ name checkFunc, (step b fs w (.registerCheck name checkFunc)).self.timeout
      = fs.timeout) ∧
    (∀ msg, (step b fs w (.markCriticalError msg)).self.timeout = fs.timeout) ∧
    (step b fs w .enterManualSafeMode).self.timeout = fs.timeout ∧
    (step b fs w .inSafeMode).self.timeout = fs.timeout ∧
    (step b fs w .getLastResetReason).self.timeout = fs.timeout ∧
    (run b (fs.begin b T w0).self w actions).self.timeout = T ∧
    ((run b (fs.begin b T w0).self w actions).self.safeMode = false →
      (((run b (fs.begin b T w0).self w actions).self.feed b w1).failedWith
          FAILSAFE_LOOP_TIMEOUT ↔
        usub b.bits (b.millis w1).1 (run b (fs.begin b T w0).self w actions).self.lastFeed
          > T)) := by
  have hT : (run b (fs.begin b T w0).self w actions).self.timeout = T :=
    run_timeout b actions (fs.begin b T w0).self w hNoBegin
  refine ⟨(feed_keeps_registry_timeout b fs w).2, fun _ _ => rfl, fun _ => rfl, rfl, rfl, rfl,
    hT, ?_⟩
  intro hN
  constructor
  · intro hfail
    by_contra hle
    exact feed_in_time_not_timeout b _ w1 hN (by rw [hT]; exact Nat.not_lt.mp hle) hfail
  · intro hgt
    rw [feed_late_eq b _ w1 hN (by rw [hT]; exact hgt)]
    exact ⟨rfl, rfl⟩

/-- Witness of C13: `begin(1000)` at clock 0, then a check registered, a
passing `feed()` at clock 900 and 1001 further milliseconds: the timeout is
still 1000, so the next `feed()`, at clock 1901, ends in LoopTimeout. -/
theorem timeout_immutable_witness :
    (run bench32 ((ESP32FailSafe.new : ESP32FailSafe Bench).begin bench32 1000 ⟨0, []⟩).self
      ⟨0, []⟩
      [.op (.registerCheck "A" (probe "A" true).func),
        .env (fun w => { w with clock := 900 }), .op .feed]).self.timeout = 1000 ∧
    ((run bench32 ((ESP32FailSafe.new : ESP32FailSafe Bench).begin bench32 1000 ⟨0, []⟩).self
      ⟨0, []⟩
      [.op (.registerCheck "A" (probe "A" true).func),
        .env (fun w => { w with clock := 900 }), .op .feed]).self.feed bench32
      ⟨1901, []⟩).failedWith FAILSAFE_LOOP_TIMEOUT :=
  have h := timeout_immutable bench32 (ESP32FailSafe.new : ESP32FailSafe Bench)
    ⟨0, []⟩ ⟨0, []⟩ ⟨1901, []⟩ 1000
    [.op (.registerCheck "A" (probe "A" true).func),
      .env (fun w => { w with clock := 900 }), .op .feed] (by decide)
  ⟨h.2.2.2.2.2.2.1, (h.2.2.2.2.2.2.2 (by decide)).mpr (by decide)⟩

/-- C14: `begin(T)` at clock reading `t` sets the timeout to `T` and `lastFeed`
to `t`, for every `T`, zero included, and leaves the flag, the reason and the
registry as they were, so it neither enters nor leaves safe mode; its only
interaction is the one clock read. -/
theorem begin_sets (b : Board σ) (fs : ESP32FailSafe σ) (w : σ) (T : Nat) :
    (fs.begin b T w).self.timeout = T ∧
    (fs.begin b T w).self.lastFeed = (b.millis w).1 ∧
    (fs.begin b 0 w).self.timeout = 0 ∧
    (fs.begin b T w).self.safeMode = fs.safeMode ∧
    (fs.begin b T w).self.reason = fs.reason ∧
    (fs.begin b T w).self.checkFunctions = fs.checkFunctions ∧
    (fs.begin b T w).events = [.millis (b.millis w).1] ∧
    (fs.begin b T w).world = (b.millis w).2 :=
  ⟨rfl, rfl, rfl, rfl, rfl, rfl, rfl, rfl⟩

/-! ## Lemmas on the diagnostic sink, the two clock reads and consistency -/

theorem serialLog_append (xs ys : List Event) :
    serialLog (xs ++ ys) = serialLog xs ++ serialLog ys := by
  simp [serialLog]

theorem serialLog_banner (msg : String) : serialLog (banner msg) = banner msg := rfl

theorem count_tag_banner (msg : String) :
    (banner msg).count (Event.print "Reason: ") = 1 := by
  simp [banner, List.count_cons]

theorem count_tag_banners : ∀ (msgs : List String),
    (banners msgs).count (Event.print "Reason: ") = msgs.length := by
  intro msgs
  induction msgs with
  | nil => rfl
  | cons m rest ih =>
    rw [banners, List.count_append, count_tag_banner, ih, List.length_cons, Nat.add_comm]

theorem run_markCriticalError (b : Board σ) :
    ∀ (msgs : List String) (fs : ESP32FailSafe σ) (w : σ),
      (run b fs w (msgs.map (fun m => Action.op (Op.markCriticalError m)))).events =
        banners msgs := by
  intro msgs
  induction msgs with
  | nil => intro fs w; rfl
  | cons m rest ih =>
    intro fs w
    simp [run, act, step, ESP32FailSafe.markCriticalError, ESP32FailSafe.enterSafeMode,
      banners, ih]

theorem run_enterManualSafeMode (b : Board σ) :
    ∀ (n : Nat) (fs : ESP32FailSafe σ) (w : σ),
      (run b fs w (List.replicate n (Action.op Op.enterManualSafeMode))).events =
        banners (List.replicate n "Manually triggered safe mode.") := by
  intro n
  induction n with
  | zero => intro fs w; rfl
  | succ k ih =>
    intro fs w
    simp [List.replicate_succ, run, act, step, ESP32FailSafe.enterManualSafeMode,
      ESP32FailSafe.enterSafeMode, banners, ih]

theorem filter_isMillis_passCalls : ∀ (checks : List (CheckFunction σ)) (i : Nat),
    (passCalls checks i).filter Event.isMillis = [] := by
  intro checks
  induction checks with
  | nil => intro i; rfl
  | cons c cs ih => intro i; simp [passCalls, Event.isMillis, ih]

theorem usub_self (w a : Nat) : usub w a a = 0 := by
  have hM : 0 < 2 ^ w := Nat.two_pow_pos w
  have hr : a % 2 ^ w < 2 ^ w := Nat.mod_lt _ hM
  have ha : 2 ^ w * (a / 2 ^ w) + a % 2 ^ w = a := Nat.div_add_mod a (2 ^ w)
  unfold usub
  have hsum : a + (2 ^ w - a % 2 ^ w) = 2 ^ w * (a / 2 ^ w + 1) := by
    rw [Nat.mul_add, Nat.mul_one]
    omega
  rw [hsum, Nat.mul_mod_right]

theorem usub_zero (w a : Nat) (ha : a < 2 ^ w) : usub w a 0 = a := by
  unfold usub
  rw [Nat.zero_mod, Nat.sub_zero, Nat.add_mod_right, Nat.mod_eq_of_lt ha]

theorem feed_pass_eq (b : Board σ) (fs : ESP32FailSafe σ) (w : σ)
    (hNormal : fs.safeMode = false)
    (hInTime : usub b.bits (b.millis w).1 fs.lastFeed ≤ fs.timeout)
    (hPass : ∀ r ∈ (evalAll fs.checkFunctions (b.millis w).2).1, r = true) :
    fs.feed b w =
      { self := { fs with
          lastFeed := (b.millis (evalAll fs.checkFunctions (b.millis w).2).2).1 }
        world := (b.millis (evalAll fs.checkFunctions (b.millis w).2).2).2
        events := .millis (b.millis w).1 :: (passCalls fs.checkFunctions 0 ++
          [.millis (b.millis (evalAll fs.checkFunctions (b.millis w).2).2).1]) } := by
  rw [feed_in_time_eq b fs w hNormal hInTime,
    feedChecks_all_pass b fs fs.checkFunctions 0 (b.millis w).2 hPass]

theorem feed_timeout_iff (b : Board σ) (fs : ESP32FailSafe σ) (w : σ)
    (hNormal : fs.safeMode = false) :
    (fs.feed b w).failedWith FAILSAFE_LOOP_TIMEOUT ↔
      usub b.bits (b.millis w).1 fs.lastFeed > fs.timeout := by
  constructor
  · intro hfail
    by_contra hle
    exact feed_in_time_not_timeout b fs w hNormal (Nat.not_lt.mp hle) hfail
  · intro hgt
    rw [feed_late_eq b fs w hNormal hgt]
    exact ⟨rfl, rfl⟩

theorem step_consistent (b : Board σ) (fs : ESP32FailSafe σ) (w : σ) (op : Op σ)
    (h : Consistent fs) : Consistent (step b fs w op).self := by
  cases op with
  | begin t => exact h
  | feed =>
    cases hN : fs.safeMode with
    | true =>
      have hfeed : (step b fs w .feed).self = fs := by simp [step, ESP32FailSafe.feed, hN]
      rw [hfeed]; exact h
    | false =>
      have hcases := feed_cases b fs w hN
      simp only [step]
      rcases hcases with ⟨hs, _⟩ | ⟨t, hs, _⟩ | ⟨hs, _⟩
      · rw [hs]; exact Or.inr ⟨rfl, Or.inl rfl⟩
      · rw [hs]; exact h
      · rw [hs]; exact Or.inr ⟨rfl, Or.inr (Or.inl rfl)⟩
  | registerCheck name checkFunc => exact h
  | markCriticalError msg => exact Or.inr ⟨rfl, Or.inr (Or.inl rfl)⟩
  | enterManualSafeMode => exact Or.inr ⟨rfl, Or.inr (Or.inr rfl)⟩
  | inSafeMode => exact h
  | getLastResetReason => exact h

theorem run_consistent (b : Board σ) :
    ∀ (actions : List (Action σ)) (fs : ESP32FailSafe σ) (w : σ),
      Consistent fs → Consistent (run b fs w actions).self := by
  intro actions
  induction actions with
  | nil => intro fs w h; exact h
  | cons a rest ih =>
    intro fs w h
    have hact : Consistent (act b fs w a).self := by
      cases a with
      | op o => exact step_consistent b fs w o h
      | env f => exact h
    simpa [run] using ih (act b fs w a).self (act b fs w a).world hact

theorem consistent_text (fs : ESP32FailSafe σ) (h : Consistent fs) :
    (fs.safeMode = false ↔ fs.reason = FAILSAFE_NONE) ∧
    (fs.getLastResetReason = "No fail" ↔ fs.inSafeMode = false) ∧
    fs.getLastResetReason ≠ "Unknown" := by
  rcases h with ⟨hf, hr⟩ | ⟨hf, hr | hr | hr⟩ <;>
    simp [ESP32FailSafe.getLastResetReason, ESP32FailSafe.inSafeMode, hf, hr,
      FAILSAFE_NONE, FAILSAFE_LOOP_TIMEOUT, FAILSAFE_CRITICAL_ERROR, FAILSAFE_MANUAL]

/-! ## The diagnostic sink -/

/-- C15: with the sink as the log of the writes to `Serial`: a call of
`markCriticalError(msg)` or of `enterManualSafeMode()` writes the banner once,
with the line `msg` (the fixed text for the manual trigger), in every state,
safe mode included; `n` calls in a row write `n` banners, one per message in
order; a `feed()` that takes a Normal supervisor to safe mode writes one
banner, and a `feed()` called in safe mode or ending Normal writes nothing;
`registerCheck`, `begin` and the two observers write nothing. -/
theorem diagnostics_per_call (b : Board σ) (fs : ESP32FailSafe σ) (w : σ)
    (msg name : String) (checkFunc : σ → Bool × σ) (T n : Nat) (msgs : List String) :
    serialLog (fs.markCriticalError msg w).events = banner msg ∧
    Event.println msg ∈ banner msg ∧
    serialLog (fs.enterManualSafeMode w).events = banner "Manually triggered safe mode." ∧
    serialLog (run b fs w (msgs.map (fun m => Action.op (Op.markCriticalError m)))).events =
      banners msgs ∧
    (serialLog (run b fs w (msgs.map (fun m => Action.op (Op.markCriticalError m)))).events).count
      (Event.print "Reason: ") = msgs.length ∧
    serialLog (run b fs w (List.replicate n (Action.op Op.enterManualSafeMode))).events =
      banners (List.replicate n "Manually triggered safe mode.") ∧
    (serialLog (run b fs w (List.replicate n (Action.op Op.enterManualSafeMode))).events).count
      (Event.print "Reason: ") = n ∧
    (fs.safeMode = false → (fs.feed b w).self.safeMode = true →
      ∃ m, serialLog (fs.feed b w).events = banner m) ∧
    (fs.safeMode = true → serialLog (fs.feed b w).events = []) ∧
    ((fs.feed b w).self.safeMode = false → serialLog (fs.feed b w).events = []) ∧
    serialLog (fs.registerCheck name checkFunc w).events = [] ∧
    serialLog (fs.begin b T w).events = [] ∧
    serialLog (step b fs w .inSafeMode).events = [] ∧
    serialLog (step b fs w .getLastResetReason).events = [] := by
  have hlog : ∀ ms : List String, serialLog (banners ms) = banners ms := by
    intro ms
    induction ms with
    | nil => rfl
    | cons m rest ih => rw [banners, serialLog_append, serialLog_banner, ih]
  refine ⟨rfl, by simp [banner], rfl, ?_, ?_, ?_, ?_, ?_, ?_, ?_, rfl, rfl, rfl, rfl⟩
  · rw [run_markCriticalError, hlog]
  · rw [run_markCriticalError, hlog, count_tag_banners]
  · rw [run_enterManualSafeMode, hlog]
  · rw [run_enterManualSafeMode, hlog, count_tag_banners, List.length_replicate]
  · intro hN hEnd
    rcases feed_cases b fs w hN with ⟨_, hl⟩ | ⟨t, hs, _⟩ | ⟨_, m, hl⟩
    · exact ⟨_, hl⟩
    · rw [hs] at hEnd
      simp only [hN] at hEnd
      exact Bool.noConfusion hEnd
    · exact ⟨m, hl⟩
  · intro hSafe
    simp [ESP32FailSafe.feed, hSafe, serialLog]
  · intro hEnd
    cases hN : fs.safeMode with
    | true => simp [ESP32FailSafe.feed, hN, serialLog]
    | false =>
      rcases feed_cases b fs w hN with ⟨hs, _⟩ | ⟨t, _, hl⟩ | ⟨hs, _⟩
      · rw [hs] at hEnd; exact Bool.noConfusion hEnd
      · exact hl
      · rw [hs] at hEnd; exact Bool.noConfusion hEnd

/-- Witness of C15: the `feed()` in which check B fails writes the banner with
the line "Check failed: B", and a second `feed()` writes nothing. -/
theorem diagnostics_per_call_witness :
    (∃ m, serialLog (benchABC.feed bench32 ⟨500, []⟩).events = banner m) ∧
    serialLog ((benchABC.feed bench32 ⟨500, []⟩).self.feed bench32 ⟨600, []⟩).events = [] :=
  ⟨(diagnostics_per_call bench32 benchABC ⟨500, []⟩ "X" "A" (probe "A" true).func 0 0
      []).2.2.2.2.2.2.2.1 rfl (by decide),
    by decide⟩

/-! ## Time spent in the checks -/

/-- Counterexample to C16: timeout 1000, last feed at 0, one healthy check that
takes 5000 ms.  The `feed()` at clock 100 passes its timeout comparison, the
clock stands at 5100 when the check evaluation ends, and the next `feed()` is
called at once, at clock 5100: both calls leave the supervisor Normal, with
reason None. -/
theorem slow_check_counterexample :
    benchSlow.timeout = 1000 ∧
    (bench32.millis ⟨100, []⟩).1 = 100 ∧
    (benchSlow.feed bench32 ⟨100, []⟩).world.clock = 5100 ∧
    (benchSlow.feed bench32 ⟨100, []⟩).self.safeMode = false ∧
    (benchSlow.feed bench32 ⟨100, []⟩).self.reason = FAILSAFE_NONE ∧
    ((benchSlow.feed bench32 ⟨100, []⟩).self.feed bench32
      (benchSlow.feed bench32 ⟨100, []⟩).world).self.safeMode = false ∧
    ((benchSlow.feed bench32 ⟨100, []⟩).self.feed bench32
      (benchSlow.feed bench32 ⟨100, []⟩).world).self.reason = FAILSAFE_NONE := by
  decide

/-- C16 as amended: time spent evaluating the predicates inside a `feed()` is
not seen by the timeout check.  A `feed()` in Normal state that is in time at
its comparison does not end in LoopTimeout, however far the clock advances
during its checks; and when its checks all pass, a next `feed()` whose clock
reading equals the one stored after the checks does not end in LoopTimeout
either, whatever the timeout. -/
theorem slow_checks_not_charged (b : Board σ) (fs : ESP32FailSafe σ) (w w3 : σ)
    (hNormal : fs.safeMode = false)
    (hInTime : usub b.bits (b.millis w).1 fs.lastFeed ≤ fs.timeout) :
    ¬ (fs.feed b w).failedWith FAILSAFE_LOOP_TIMEOUT ∧
    ((∀ r ∈ (evalAll fs.checkFunctions (b.millis w).2).1, r = true) →
      (b.millis w3).1 = (b.millis (evalAll fs.checkFunctions (b.millis w).2).2).1 →
      (fs.feed b w).self.safeMode = false ∧
      ¬ ((fs.feed b w).self.feed b w3).failedWith FAILSAFE_LOOP_TIMEOUT) := by
  refine ⟨feed_in_time_not_timeout b fs w hNormal hInTime, ?_⟩
  intro hPass hSame
  rw [feed_pass_eq b fs w hNormal hInTime hPass]
  refine ⟨hNormal, feed_in_time_not_timeout b _ w3 hNormal ?_⟩
  simp only [hSame, usub_self]
  exact Nat.zero_le _

/-- Witness of C16 as amended: the five-second check with timeout 1000: the
`feed()` at clock 100 and the next one at clock 5100 do not end in
LoopTimeout. -/
theorem slow_checks_not_charged_witness :
    ¬ (benchSlow.feed bench32 ⟨100, []⟩).failedWith FAILSAFE_LOOP_TIMEOUT ∧
    ¬ ((benchSlow.feed bench32 ⟨100, []⟩).self.feed bench32
      ⟨5100, ["S"]⟩).failedWith FAILSAFE_LOOP_TIMEOUT :=
  have h := slow_checks_not_charged bench32 benchSlow ⟨100, []⟩ ⟨5100, ["S"]⟩ rfl (by decide)
  ⟨h.1, (h.2 (by decide) (by decide)).2⟩

/-- C17: a `feed()` in Normal state that is in time and whose checks all pass
reads the clock twice, `t1` before the checks for the comparison and `t2`
after them, and stores `t2` in `lastFeed`; the next `feed()`, at reading `t3`,
ends in LoopTimeout exactly when the unsigned difference `t3 - t2` exceeds the
timeout, so the interval from `t1` to `t2` is not part of the elapsed time it
sees. -/
theorem feed_reads_clock_twice (b : Board σ) (fs : ESP32FailSafe σ) (w w3 : σ)
    (hNormal : fs.safeMode = false)
    (hInTime : usub b.bits (b.millis w).1 fs.lastFeed ≤ fs.timeout)
    (hPass : ∀ r ∈ (evalAll fs.checkFunctions (b.millis w).2).1, r = true) :
    (fs.feed b w).events.filter Event.isMillis =
      [.millis (b.millis w).1,
        .millis (b.millis (evalAll fs.checkFunctions (b.millis w).2).2).1] ∧
    (fs.feed b w).events = .millis (b.millis w).1 :: (passCalls fs.checkFunctions 0 ++
      [.millis (b.millis (evalAll fs.checkFunctions (b.millis w).2).2).1]) ∧
    (fs.feed b w).self.lastFeed =
      (b.millis (evalAll fs.checkFunctions (b.millis w).2).2).1 ∧
    (((fs.feed b w).self.feed b w3).failedWith FAILSAFE_LOOP_TIMEOUT ↔
      usub b.bits (b.millis w3).1 (b.millis (evalAll fs.checkFunctions (b.millis w).2).2).1
        > fs.timeout) := by
  rw [feed_pass_eq b fs w hNormal hInTime hPass]
  refine ⟨?_, rfl, rfl, ?_⟩
  · simp [Event.isMillis, filter_isMillis_passCalls]
  · exact feed_timeout_iff b _ w3 hNormal

/-- Witness of C17: on the board whose clock ticks at each read, a passing
`feed()` that starts at clock 500 reads 500 and then 501 and stores 501; with
the five-second check it stores 5100, and the next `feed()`, at clock 6000,
does not end in LoopTimeout although 5900 ms have passed since the
comparison. -/
theorem feed_reads_clock_twice_witness :
    (({ benchABC with checkFunctions := [probe "A" true] } : ESP32FailSafe Bench).feed
      ticking32 ⟨500, []⟩).events.filter Event.isMillis = [.millis 500, .millis 501] ∧
    (({ benchABC with checkFunctions := [probe "A" true] } : ESP32FailSafe Bench).feed
      ticking32 ⟨500, []⟩).self.lastFeed = 501 ∧
    (benchSlow.feed bench32 ⟨100, []⟩).self.lastFeed = 5100 ∧
    ¬ ((benchSlow.feed bench32 ⟨100, []⟩).self.feed bench32
      ⟨6000, []⟩).failedWith FAILSAFE_LOOP_TIMEOUT :=
  have h1 := feed_reads_clock_twice ticking32
    ({ benchABC with checkFunctions := [probe "A" true] } : ESP32FailSafe Bench)
    ⟨500, []⟩ ⟨500, []⟩ rfl (by decide) (by decide)
  have h2 := feed_reads_clock_twice bench32 benchSlow ⟨100, []⟩ ⟨6000, []⟩ rfl (by decide)
    (by decide)
  ⟨h1.1, h1.2.2.1, h2.2.2.1, fun hfail => absurd (h2.2.2.2.mp hfail) (by decide)⟩

/-! ## Reachable states -/

/-- C18: in every state reached from the constructor by a sequence of public
calls, with any arguments, interleaved with arbitrary changes of the world,
the flag is false if and only if the reason is None; so
`getLastResetReason()` returns "No fail" exactly when `inSafeMode()` is false,
and never returns "Unknown". -/
theorem reachable_flag_iff_reason (b : Board σ) (w : σ) (actions : List (Action σ)) :
    ((run b ESP32FailSafe.new w actions).self.safeMode = false ↔
      (run b ESP32FailSafe.new w actions).self.reason = FAILSAFE_NONE) ∧
    ((run b ESP32FailSafe.new w actions).self.getLastResetReason = "No fail" ↔
      (run b ESP32FailSafe.new w actions).self.inSafeMode = false) ∧
    (run b ESP32FailSafe.new w actions).self.getLastResetReason ≠ "Unknown" :=
  consistent_text _ (run_consistent b actions ESP32FailSafe.new w (Or.inl ⟨rfl, rfl⟩))

/-- C19: a freshly constructed supervisor has timeout 3000, `lastFeed` 0, the
flag false and reason None; whatever checks are registered, its first `feed()`,
at a clock reading `t` (an `unsigned long`), ends in safe mode with reason
LoopTimeout if and only if `t > 3000`; and when `t ≤ 3000` and no check fails
it stays Normal with reason None and stores in `lastFeed` the clock reading
taken after the checks. -/
theorem feed_before_begin (b : Board σ) (checks : List (CheckFunction σ)) (w : σ)
    (hRange : (b.millis w).1 < 2 ^ b.bits) :
    (ESP32FailSafe.new : ESP32FailSafe σ).timeout = 3000 ∧
    (ESP32FailSafe.new : ESP32FailSafe σ).lastFeed = 0 ∧
    (ESP32FailSafe.new : ESP32FailSafe σ).safeMode = false ∧
    (ESP32FailSafe.new : ESP32FailSafe σ).reason = FAILSAFE_NONE ∧
    ((({ (ESP32FailSafe.new : ESP32FailSafe σ) with checkFunctions := checks } :
        ESP32FailSafe σ).feed b w).failedWith FAILSAFE_LOOP_TIMEOUT ↔
      (b.millis w).1 > 3000) ∧
    ((b.millis w).1 ≤ 3000 →
      (∀ r ∈ (evalAll checks (b.millis w).2).1, r = true) →
      (({ (ESP32FailSafe.new : ESP32FailSafe σ) with checkFunctions := checks } :
        ESP32FailSafe σ).feed b w).self.safeMode = false ∧
      (({ (ESP32FailSafe.new : ESP32FailSafe σ) with checkFunctions := checks } :
        ESP32FailSafe σ).feed b w).self.reason = FAILSAFE_NONE ∧
      (({ (ESP32FailSafe.new : ESP32FailSafe σ) with checkFunctions := checks } :
        ESP32FailSafe σ).feed b w).self.lastFeed =
          (b.millis (evalAll checks (b.millis w).2).2).1) := by
  have hsub : usub b.bits (b.millis w).1 0 = (b.millis w).1 := usub_zero _ _ hRange
  refine ⟨rfl, rfl, rfl, rfl, ?_, ?_⟩
  · rw [feed_timeout_iff b _ w rfl]
    show usub b.bits (b.millis w).1 0 > 3000 ↔ _
    rw [hsub]
  · intro hle hPass
    have hInTime : usub b.bits (b.millis w).1
        ({ (ESP32FailSafe.new : ESP32FailSafe σ) with checkFunctions := checks } :
          ESP32FailSafe σ).lastFeed ≤
        ({ (ESP32FailSafe.new : ESP32FailSafe σ) with checkFunctions := checks } :
          ESP32FailSafe σ).timeout := by
      show usub b.bits (b.millis w).1 0 ≤ 3000
      rw [hsub]; exact hle
    rw [feed_pass_eq b _ w rfl hInTime hPass]
    exact ⟨rfl, rfl, rfl⟩

/-- Witness of C19: a fresh supervisor with check A registered and no `begin`:
the `feed()` at clock 3001 ends in LoopTimeout, the `feed()` at clock 3000
stays Normal and stores 3000. -/
theorem feed_before_begin_witness :
    (({ (ESP32FailSafe.new : ESP32FailSafe Bench) with
        checkFunctions := [probe "A" true] } : ESP32FailSafe Bench).feed bench32
      ⟨3001, []⟩).failedWith FAILSAFE_LOOP_TIMEOUT ∧
    (({ (ESP32FailSafe.new : ESP32FailSafe Bench) with
        checkFunctions := [probe "A" true] } : ESP32FailSafe Bench).feed bench32
      ⟨3000, []⟩).self.safeMode = false ∧
    (({ (ESP32FailSafe.new : ESP32FailSafe Bench) with
        checkFunctions := [probe "A" true] } : ESP32FailSafe Bench).feed bench32
      ⟨3000, []⟩).self.lastFeed = 3000 :=
  have h1 := feed_before_begin bench32 [probe "A" true] ⟨3001, []⟩ (by decide)
  have h2 := feed_before_begin bench32 [probe "A" true] ⟨3000, []⟩ (by decide)
  ⟨h1.2.2.2.2.1.mpr (by decide),
    (h2.2.2.2.2.2 (by decide) (by decide)).1,
    (h2.2.2.2.2.2 (by decide) (by decide)).2.2⟩

end FailSafe
